import Mathlib

/-!
# Verification of the OS-lab3 half-duplex batch scheduler

A shallow embedding of `src/operating-system/OS-lab3/batch-scheduler.c`.

The C program coordinates tasks over a half-duplex bus of capacity 3 with
two priority levels, using Pintos counting semaphores.  We embed:

* the global variables of the C file (`Globals`),
* the pure bodies of `get_slot`'s must-wait test, `wakeup_waiting_task`
  and `release_slot` (transcribed statement by statement),
* a small-step transition system over a pool of task threads, in which each
  atomic step is a maximal code region executed while holding the `mutex`
  semaphore (all shared-variable accesses in the C code happen under
  `mutex`; the only suspension points are the semaphore `sema_down` calls,
  which delimit the steps).

Semaphores are modelled by their counter values (Pintos `sema_down` blocks
until the value is positive, then decrements; `sema_up` increments), so a
thread parked just before a `sema_down` may proceed exactly when the
value is positive.

Thread locations (`Loc`):
* `start`        : before `sema_down(&mutex)` at the top of `get_slot`;
* `waitSem`      : inside `wait_to_be_onboard`, after incrementing its wait
                   counter and releasing `mutex`, before `sema_down(sem)`;
* `waitMutex`    : after `sema_down(sem)` succeeded, before re-acquiring
                   `mutex`;
* `blockedSlots` : suspended inside `sema_down(&bus_slots)` at the end of
                   `get_slot` WHILE HOLDING `mutex` (this location is entered
                   when `bus_slots` is 0 at that point);
* `onboard`      : holding a slot (covers `transfer_data`, which touches no
                   shared state), before `sema_down(&mutex)` in
                   `release_slot`;
* `done`         : after `release_slot` returned.
-/

namespace BatchSched

/-- Directions, from the C enum `direction_t` (`SEND = 0`, `RECEIVE = 1`). -/
inductive Dir
  | send
  | receive
  deriving DecidableEq, Repr

/-- The integer value of a direction, as stored in `bus_direction`. -/
def dirToInt : Dir → Int
  | .send => 0
  | .receive => 1

/-- `SEND` from the C enum. -/
def SEND : Int := 0

/-- `RECEIVE` from the C enum. -/
def RECEIVE : Int := 1

/-- `BUS_CAPACITY` from the C file. -/
def BUS_CAPACITY : Int := 3

/-- Priorities, from the C enum `priority_t` (`NORMAL = 0`, `PRIORITY = 1`). -/
inductive Prio
  | normal
  | priority
  deriving DecidableEq, Repr

/-- The global variables of `batch-scheduler.c`.  C `int` variables become
`Int`; semaphore values are `Nat` (a Pintos semaphore value is unsigned and
never negative).  `mutexHolder` is bookkeeping recording which thread is
inside the `mutex` critical section while suspended (only a thread parked at
`blockedSlots` holds `mutex` across a step boundary). -/
structure Globals where
  bus_direction : Int
  task_on_bus : Int
  waiting_task : Int
  send_task : Int
  receiver_task : Int
  send_priority_task : Int
  recv_priority_task : Int
  bus_slots : Nat
  mutex : Nat
  mutexHolder : Option Nat
  has_sender_semaphore : Nat
  has_receiver_semaphore : Nat
  has_sender_priority_semaphore : Nat
  has_receiver_priority_semaphore : Nat
  deriving DecidableEq, Repr

/-- The state established by `init_bus`: `sema_init(&bus_slots, BUS_CAPACITY)`,
`sema_init(&mutex, 1)`, the four class semaphores at 0, `bus_direction = -1`
and all counters 0. -/
def init_bus_globals : Globals where
  bus_direction := -1
  task_on_bus := 0
  waiting_task := 0
  send_task := 0
  receiver_task := 0
  send_priority_task := 0
  recv_priority_task := 0
  bus_slots := 3
  mutex := 1
  mutexHolder := none
  has_sender_semaphore := 0
  has_receiver_semaphore := 0
  has_sender_priority_semaphore := 0
  has_receiver_priority_semaphore := 0

/-- The four wait classes (priority × direction), each with its counter and
its semaphore in the C file. -/
inductive WClass
  | sp
  | sn
  | rp
  | rn
  deriving DecidableEq, Repr

/-- The wait class a task of given direction and priority uses in
`get_slot`'s `must_wait` branch. -/
def waitClassOf : Dir → Prio → WClass
  | .send, .priority => .sp
  | .send, .normal => .sn
  | .receive, .priority => .rp
  | .receive, .normal => .rn

/-- The waiting counter of a class (`send_priority_task`, `send_task`,
`recv_priority_task`, `receiver_task`). -/
def classCount (g : Globals) : WClass → Int
  | .sp => g.send_priority_task
  | .sn => g.send_task
  | .rp => g.recv_priority_task
  | .rn => g.receiver_task

/-- Add `d` to the waiting counter of class `c`. -/
def bumpClass (g : Globals) (c : WClass) (d : Int) : Globals :=
  match c with
  | .sp => { g with send_priority_task := g.send_priority_task + d }
  | .sn => { g with send_task := g.send_task + d }
  | .rp => { g with recv_priority_task := g.recv_priority_task + d }
  | .rn => { g with receiver_task := g.receiver_task + d }

/-- The semaphore value of a class. -/
def semCount (g : Globals) : WClass → Nat
  | .sp => g.has_sender_priority_semaphore
  | .sn => g.has_sender_semaphore
  | .rp => g.has_receiver_priority_semaphore
  | .rn => g.has_receiver_semaphore

/-- Add `k` to the semaphore value of class `c` (`k` successive `sema_up`s). -/
def addSem (g : Globals) (c : WClass) (k : Nat) : Globals :=
  match c with
  | .sp => { g with has_sender_priority_semaphore := g.has_sender_priority_semaphore + k }
  | .sn => { g with has_sender_semaphore := g.has_sender_semaphore + k }
  | .rp => { g with has_receiver_priority_semaphore := g.has_receiver_priority_semaphore + k }
  | .rn => { g with has_receiver_semaphore := g.has_receiver_semaphore + k }

/-- Decrement the semaphore value of class `c` (one `sema_down`). -/
def subSem (g : Globals) (c : WClass) : Globals :=
  match c with
  | .sp => { g with has_sender_priority_semaphore := g.has_sender_priority_semaphore - 1 }
  | .sn => { g with has_sender_semaphore := g.has_sender_semaphore - 1 }
  | .rp => { g with has_receiver_priority_semaphore := g.has_receiver_priority_semaphore - 1 }
  | .rn => { g with has_receiver_semaphore := g.has_receiver_semaphore - 1 }

/-- `2^32`, the modulus of C `unsigned int`. -/
def UINT_MOD : Int := 4294967296

/-- The value of `MIN(empty_bus_slots, waiting)` in `wakeup_waiting_task`.
`empty_bus_slots` is a C `int` and `waiting` a C `unsigned int`, so the
macro's comparison `empty_bus_slots < waiting` converts `empty_bus_slots`
to `unsigned int` (usual arithmetic conversions): a negative
`empty_bus_slots` wraps to a huge unsigned value and the comparison picks
`waiting`. -/
def toWakeCount (empty waiting : Int) : Int :=
  if empty % UINT_MOD < waiting % UINT_MOD then empty else waiting

/-- `wakeup_waiting_task(sem, waiting)`: recomputes
`empty_bus_slots = BUS_CAPACITY - task_on_bus - waiting_task`, wakes
`to_wake = MIN(empty_bus_slots, waiting)` tasks (the loop performs
`to_wake` iterations when `to_wake > 0`, none otherwise, each doing
`sema_up(sem); waiting_task++`) and returns `to_wake`. -/
def wakeup_waiting_task (g : Globals) (c : WClass) : Globals × Int :=
  let empty_bus_slots : Int := BUS_CAPACITY - g.task_on_bus - g.waiting_task
  let to_wake : Int := toWakeCount empty_bus_slots (classCount g c)
  (addSem { g with waiting_task := g.waiting_task + (to_wake.toNat : Int) } c to_wake.toNat,
   to_wake)

/-- The `must_wait` test at the top of `get_slot`, in the order written in
the C code: full bus, then opposite active direction, then (for normal
tasks only) pending same-direction priority waiters. -/
def must_wait (g : Globals) (d : Dir) (p : Prio) : Bool :=
  if BUS_CAPACITY ≤ g.task_on_bus then true
  else if g.bus_direction ≠ -1 ∧ g.bus_direction ≠ dirToInt d then true
  else if p = .normal then
    if d = .send ∧ 0 < g.send_priority_task then true
    else if d = .receive ∧ 0 < g.recv_priority_task then true
    else false
  else false

/-- The first `if` block of `release_slot`: when `bus_direction != RECEIVE`,
wake waiting priority senders, then (only when `recv_priority_task == 0`)
waiting normal senders, and set `bus_direction = SEND` when `can_aboard > 0`.
Returns the new globals and `can_aboard`. -/
def send_side_pass (g : Globals) : Globals × Int :=
  if g.bus_direction ≠ RECEIVE then
    let r1 := wakeup_waiting_task g .sp
    let r2 :=
      if r1.1.recv_priority_task = 0 then
        let r := wakeup_waiting_task r1.1 .sn
        (r.1, r1.2 + r.2)
      else (r1.1, r1.2)
    if 0 < r2.2 then ({ r2.1 with bus_direction := SEND }, r2.2) else r2
  else (g, 0)

/-- The second `if` block of `release_slot`: when `bus_direction != SEND`,
wake waiting priority receivers, then (only when `send_priority_task == 0`)
waiting normal receivers, and set `bus_direction = RECEIVE` when
`can_aboard > 0`.  Returns the new globals and `can_aboard`. -/
def recv_side_pass (g : Globals) : Globals × Int :=
  if g.bus_direction ≠ SEND then
    let r1 := wakeup_waiting_task g .rp
    let r2 :=
      if r1.1.send_priority_task = 0 then
        let r := wakeup_waiting_task r1.1 .rn
        (r.1, r1.2 + r.2)
      else (r1.1, r1.2)
    if 0 < r2.2 then ({ r2.1 with bus_direction := RECEIVE }, r2.2) else r2
  else (g, 0)

/-- The body of `release_slot` between `sema_down(&mutex)` and
`sema_up(&mutex)`, transcribed statement by statement: decrement
`task_on_bus`, `sema_up(&bus_slots)`, reset the direction when the bus
emptied, then the two wake passes.  Returns the new globals together with
the total number of `sema_up` wakes performed (the sum of all `to_wake`
return values of its `wakeup_waiting_task` calls). -/
def release_slot (g0 : Globals) : Globals × Int :=
  let g1 := { g0 with task_on_bus := g0.task_on_bus - 1, bus_slots := g0.bus_slots + 1 }
  let g2 := if g1.task_on_bus = 0 then { g1 with bus_direction := -1 } else g1
  let s := send_side_pass g2
  let r := recv_side_pass s.1
  (r.1, s.2 + r.2)

/-- The effect of `sema_down(&bus_slots); task_on_bus++;
bus_direction = task->direction` when `bus_slots` is positive. -/
def boardGlobals (g : Globals) (d : Dir) : Globals :=
  { g with
    bus_slots := g.bus_slots - 1
    task_on_bus := g.task_on_bus + 1
    bus_direction := dirToInt d }

/-- Program-counter locations of a task thread (see the file header). -/
inductive Loc
  | start
  | waitSem
  | waitMutex
  | blockedSlots
  | onboard
  | done
  deriving DecidableEq, Repr

/-- One task thread: its immutable direction and priority and its location. -/
structure Thread where
  dir : Dir
  prio : Prio
  loc : Loc
  deriving DecidableEq, Repr

/-- A state of the whole system. -/
structure SchedState where
  g : Globals
  threads : List Thread
  deriving DecidableEq, Repr

/-- The atomic step of the thread `th` (at index `i`), covering the code
from its current suspension point to the next one. -/
def threadStep (i : Nat) (th : Thread) (s : SchedState) : SchedState :=
  match th.loc with
  | .start =>
      if must_wait s.g th.dir th.prio then
        { g := bumpClass s.g (waitClassOf th.dir th.prio) 1
          threads := s.threads.set i { th with loc := .waitSem } }
      else if 0 < s.g.bus_slots then
        { g := boardGlobals s.g th.dir
          threads := s.threads.set i { th with loc := .onboard } }
      else
        { g := { s.g with mutex := s.g.mutex - 1, mutexHolder := some i }
          threads := s.threads.set i { th with loc := .blockedSlots } }
  | .waitSem =>
      { g := subSem s.g (waitClassOf th.dir th.prio)
        threads := s.threads.set i { th with loc := .waitMutex } }
  | .waitMutex =>
      let g1 := bumpClass s.g (waitClassOf th.dir th.prio) (-1)
      let g2 := { g1 with waiting_task := g1.waiting_task - 1 }
      if 0 < g2.bus_slots then
        { g := boardGlobals g2 th.dir
          threads := s.threads.set i { th with loc := .onboard } }
      else
        { g := { g2 with mutex := g2.mutex - 1, mutexHolder := some i }
          threads := s.threads.set i { th with loc := .blockedSlots } }
  | .blockedSlots =>
      { g := { boardGlobals s.g th.dir with mutex := s.g.mutex + 1, mutexHolder := none }
        threads := s.threads.set i { th with loc := .onboard } }
  | .onboard =>
      { g := (release_slot s.g).1
        threads := s.threads.set i { th with loc := .done } }
  | .done => s

/-- Step function: thread `i` takes its atomic step. -/
def stepFn (i : Nat) (s : SchedState) : SchedState :=
  match s.threads.get? i with
  | some th => threadStep i th s
  | none => s

/-- Whether thread `i`'s next atomic step is enabled: the semaphore it is
about to `sema_down` must be positive. -/
def enabled (i : Nat) (s : SchedState) : Bool :=
  match s.threads.get? i with
  | some th =>
    match th.loc with
    | .start => decide (0 < s.g.mutex)
    | .waitSem => decide (0 < semCount s.g (waitClassOf th.dir th.prio))
    | .waitMutex => decide (0 < s.g.mutex)
    | .blockedSlots => decide (0 < s.g.bus_slots)
    | .onboard => decide (0 < s.g.mutex)
    | .done => false
  | none => false

/-- One step of the system: some enabled thread takes its atomic step. -/
def Step (s s' : SchedState) : Prop :=
  ∃ i, enabled i s = true ∧ s' = stepFn i s

/-- Reachability between states of the transition system. -/
def Reachable (s0 s : SchedState) : Prop :=
  Relation.ReflTransGen Step s0 s

/-- The initial state for a given pool of task classes: the globals set up
by `init_bus`, every thread at the top of `get_slot`. -/
def initState (classes : List (Dir × Prio)) : SchedState where
  g := init_bus_globals
  threads := classes.map fun c => ⟨c.1, c.2, .start⟩

/-- Run a schedule (list of thread indices) from a state. -/
def runTrace (tr : List Nat) (s : SchedState) : SchedState :=
  tr.foldl (fun s i => stepFn i s) s

/-- Check that every step of a schedule is enabled when taken. -/
def traceOk (tr : List Nat) (s : SchedState) : Bool :=
  match tr with
  | [] => true
  | i :: tr' => enabled i s && traceOk tr' (stepFn i s)

theorem reachable_runTrace :
    ∀ (tr : List Nat) (s : SchedState), traceOk tr s = true →
      Reachable s (runTrace tr s) := by
  intro tr
  induction tr with
  | nil => intro s _; exact Relation.ReflTransGen.refl
  | cons i tr' ih =>
      intro s h
      simp only [traceOk, Bool.and_eq_true] at h
      exact Relation.ReflTransGen.head ⟨i, h.1, rfl⟩ (ih (stepFn i s) h.2)

end BatchSched

namespace BatchSched

/-- Number of threads currently holding a slot (location `onboard`). -/
def onboardCount (l : List Thread) : Nat :=
  l.countP fun th => decide (th.loc = Loc.onboard)

/-- Exact effect of `List.set` on `countP`. -/
theorem countP_set_eq (p : Thread → Bool) :
    ∀ (l : List Thread) (i : Nat) (a b : Thread), l.get? i = some a →
      (l.set i b).countP p + (if p a then 1 else 0) =
        l.countP p + (if p b then 1 else 0) := by
  intro l
  induction l with
  | nil => intro i a b h; simp at h
  | cons x xs ih =>
      intro i a b h
      cases i with
      | zero =>
          simp only [List.get?_cons_zero, Option.some.injEq] at h
          subst h
          simp only [List.set, List.countP_cons]
          omega
      | succ n =>
          simp only [List.get?_cons_succ] at h
          simp only [List.set, List.countP_cons]
          have := ih n a b h
          omega

theorem bumpClass_fields (g : Globals) (c : WClass) (d : Int) :
    (bumpClass g c d).task_on_bus = g.task_on_bus ∧
    (bumpClass g c d).bus_slots = g.bus_slots ∧
    (bumpClass g c d).bus_direction = g.bus_direction ∧
    (bumpClass g c d).mutex = g.mutex := by
  cases c <;> simp [bumpClass]

theorem subSem_fields (g : Globals) (c : WClass) :
    (subSem g c).task_on_bus = g.task_on_bus ∧
    (subSem g c).bus_slots = g.bus_slots ∧
    (subSem g c).bus_direction = g.bus_direction := by
  cases c <;> simp [subSem]

theorem wakeup_fields (g : Globals) (c : WClass) :
    (wakeup_waiting_task g c).1.task_on_bus = g.task_on_bus ∧
    (wakeup_waiting_task g c).1.bus_slots = g.bus_slots ∧
    (wakeup_waiting_task g c).1.bus_direction = g.bus_direction := by
  cases c <;> simp [wakeup_waiting_task, addSem]

theorem send_side_pass_fields (g : Globals) :
    (send_side_pass g).1.task_on_bus = g.task_on_bus ∧
    (send_side_pass g).1.bus_slots = g.bus_slots := by
  obtain ⟨h1, h2, h3⟩ := wakeup_fields g .sp
  obtain ⟨h4, h5, h6⟩ := wakeup_fields (wakeup_waiting_task g .sp).1 .sn
  simp only [send_side_pass]
  split_ifs <;> simp_all

theorem recv_side_pass_fields (g : Globals) :
    (recv_side_pass g).1.task_on_bus = g.task_on_bus ∧
    (recv_side_pass g).1.bus_slots = g.bus_slots := by
  obtain ⟨h1, h2, h3⟩ := wakeup_fields g .rp
  obtain ⟨h4, h5, h6⟩ := wakeup_fields (wakeup_waiting_task g .rp).1 .rn
  simp only [recv_side_pass]
  split_ifs <;> simp_all

theorem both_passes_fields (h : Globals) :
    (recv_side_pass (send_side_pass h).1).1.task_on_bus = h.task_on_bus ∧
    (recv_side_pass (send_side_pass h).1).1.bus_slots = h.bus_slots := by
  obtain ⟨hs1, hs2⟩ := send_side_pass_fields h
  obtain ⟨hr1, hr2⟩ := recv_side_pass_fields (send_side_pass h).1
  exact ⟨hr1.trans hs1, hr2.trans hs2⟩

theorem release_slot_fields (g : Globals) :
    (release_slot g).1.task_on_bus = g.task_on_bus - 1 ∧
    (release_slot g).1.bus_slots = g.bus_slots + 1 := by
  simp only [release_slot]
  constructor
  · rw [(both_passes_fields _).1]
    split <;> rfl
  · rw [(both_passes_fields _).2]
    split <;> rfl

end BatchSched

namespace BatchSched

theorem send_side_pass_dir (g : Globals)
    (h : (send_side_pass g).1.bus_direction = -1) : g.bus_direction = -1 := by
  obtain ⟨h1, h2, h3⟩ := wakeup_fields g .sp
  obtain ⟨h4, h5, h6⟩ := wakeup_fields (wakeup_waiting_task g .sp).1 .sn
  simp only [send_side_pass] at h
  split_ifs at h <;> simp_all [SEND]

theorem recv_side_pass_dir (g : Globals)
    (h : (recv_side_pass g).1.bus_direction = -1) : g.bus_direction = -1 := by
  obtain ⟨h1, h2, h3⟩ := wakeup_fields g .rp
  obtain ⟨h4, h5, h6⟩ := wakeup_fields (wakeup_waiting_task g .rp).1 .rn
  simp only [recv_side_pass] at h
  split_ifs at h <;> simp_all [RECEIVE]

theorem release_slot_dir_none (g : Globals)
    (hpre : g.bus_direction = -1 → g.task_on_bus = 0)
    (ht : 1 ≤ g.task_on_bus)
    (h : (release_slot g).1.bus_direction = -1) :
    (release_slot g).1.task_on_bus = 0 := by
  rw [(release_slot_fields g).1]
  simp only [release_slot] at h
  have h2 := send_side_pass_dir _ (recv_side_pass_dir _ h)
  split_ifs at h2 with h0
  · omega
  · simp only at h2
    exact absurd (hpre h2) (by omega)

/-- The inductive invariant: `task_on_bus` counts exactly the threads at
location `onboard`, `task_on_bus + bus_slots` is the constant capacity 3
(the `bus_slots` semaphore accounting), and the direction is `-1` only
when the bus is empty. -/
def Inv (s : SchedState) : Prop :=
  s.g.task_on_bus = (onboardCount s.threads : Int) ∧
  s.g.task_on_bus + (s.g.bus_slots : Int) = 3 ∧
  (s.g.bus_direction = -1 → s.g.task_on_bus = 0)

theorem onboardCount_init (classes : List (Dir × Prio)) :
    onboardCount (initState classes).threads = 0 := by
  simp only [initState, onboardCount]
  rw [List.countP_eq_zero]
  intro a ha
  simp only [List.mem_map] at ha
  obtain ⟨c, _, rfl⟩ := ha
  simp

theorem inv_init (classes : List (Dir × Prio)) : Inv (initState classes) := by
  refine ⟨?_, by simp [initState, init_bus_globals],
    by simp [initState, init_bus_globals]⟩
  rw [onboardCount_init]
  simp [initState, init_bus_globals]

theorem inv_step {s s' : SchedState} (hinv : Inv s) (hs : Step s s') : Inv s' := by
  obtain ⟨i, hen, rfl⟩ := hs
  obtain ⟨h1, h2, h3⟩ := hinv
  simp only [Inv, onboardCount] at h1 ⊢
  unfold stepFn
  cases hget : s.threads.get? i with
  | none => exact ⟨h1, h2, h3⟩
  | some th =>
    obtain ⟨d, p, loc⟩ := th
    have hcnt := fun (nth : Thread) =>
      countP_set_eq (fun t => decide (t.loc = Loc.onboard)) s.threads i ⟨d, p, loc⟩ nth hget
    cases loc with
    | start =>
        simp only [threadStep]
        split_ifs with hmw hslots
        · have hc := hcnt ⟨d, p, .waitSem⟩
          simp at hc
          obtain ⟨b1, b2, b3, b4⟩ := bumpClass_fields s.g (waitClassOf d p) 1
          refine ⟨?_, ?_, ?_⟩ <;> simp_all
        · have hc := hcnt ⟨d, p, .onboard⟩
          simp at hc
          refine ⟨?_, ?_, ?_⟩
          · simp only [boardGlobals]
            omega
          · simp only [boardGlobals]
            omega
          · simp only [boardGlobals]
            cases d <;> simp [dirToInt]
        · have hc := hcnt ⟨d, p, .blockedSlots⟩
          simp at hc
          refine ⟨?_, ?_, ?_⟩ <;> simp_all
    | waitSem =>
        simp only [threadStep]
        have hc := hcnt ⟨d, p, .waitMutex⟩
        simp at hc
        obtain ⟨b1, b2, b3⟩ := subSem_fields s.g (waitClassOf d p)
        refine ⟨?_, ?_, ?_⟩ <;> simp_all
    | waitMutex =>
        simp only [threadStep]
        obtain ⟨b1, b2, b3, b4⟩ := bumpClass_fields s.g (waitClassOf d p) (-1)
        split_ifs with hslots
        · have hc := hcnt ⟨d, p, .onboard⟩
          simp at hc
          refine ⟨?_, ?_, ?_⟩
          · simp only [boardGlobals, b1]
            omega
          · simp only [boardGlobals, b1, b2]
            rw [b2] at hslots
            omega
          · simp only [boardGlobals]
            cases d <;> simp [dirToInt]
        · have hc := hcnt ⟨d, p, .blockedSlots⟩
          simp at hc
          refine ⟨?_, ?_, ?_⟩ <;> simp_all
    | blockedSlots =>
        simp only [threadStep]
        have hslots : 0 < s.g.bus_slots := by
          simp only [enabled, hget] at hen
          exact of_decide_eq_true hen
        have hc := hcnt ⟨d, p, .onboard⟩
        simp at hc
        refine ⟨?_, ?_, ?_⟩
        · simp only [boardGlobals]
          omega
        · simp only [boardGlobals]
          omega
        · simp only [boardGlobals]
          cases d <;> simp [dirToInt]
    | onboard =>
        simp only [threadStep]
        have hc := hcnt ⟨d, p, .done⟩
        simp at hc
        have hmem : 0 < s.threads.countP fun t => decide (t.loc = Loc.onboard) :=
          List.countP_pos_iff.mpr ⟨⟨d, p, .onboard⟩, List.get?_mem hget, by simp⟩
        have ht : 1 ≤ s.g.task_on_bus := by omega
        obtain ⟨f1, f2⟩ := release_slot_fields s.g
        refine ⟨?_, ?_, ?_⟩
        · rw [f1]
          omega
        · rw [f1, f2]
          omega
        · exact release_slot_dir_none s.g h3 ht
    | done =>
        simp only [threadStep]
        exact ⟨h1, h2, h3⟩

theorem inv_reachable {classes : List (Dir × Prio)} {s : SchedState}
    (h : Reachable (initState classes) s) : Inv s := by
  induction h with
  | refl => exact inv_init classes
  | tail _ hstep ih => exact inv_step ih hstep

end BatchSched

namespace BatchSched

/-- C1: at every observable instant of any execution, the number of onboard
tasks (`task_on_bus`, incremented in `get_slot` and decremented in
`release_slot`) is at most the capacity 3; no reachable interleaving of
acquire and release calls makes the occupancy exceed `BUS_CAPACITY`. -/
theorem C1_occupied_at_most_capacity (classes : List (Dir × Prio)) (s : SchedState)
    (h : Reachable (initState classes) s) :
    s.g.task_on_bus ≤ BUS_CAPACITY ∧ onboardCount s.threads ≤ 3 := by
  obtain ⟨h1, h2, _⟩ := inv_reachable h
  constructor
  · simp only [BUS_CAPACITY]
    omega
  · omega

theorem C1_occupied_at_most_capacity_witness :
    (initState [(Dir.send, Prio.priority)]).g.task_on_bus ≤ BUS_CAPACITY ∧
    onboardCount (initState [(Dir.send, Prio.priority)]).threads ≤ 3 :=
  C1_occupied_at_most_capacity _ _ Relation.ReflTransGen.refl

/-- Thread pool for the C2 schedule: a priority sender, two priority
receivers and a second priority sender. -/
def c2Classes : List (Dir × Prio) :=
  [(.send, .priority), (.receive, .priority), (.receive, .priority), (.send, .priority)]

/-- Schedule: sender 0 boards and releases (waking receiver 1); receiver 2
boards and releases (waking sender 3 while receiver 1 is still pending);
then the two woken tasks board in turn, each setting `bus_direction` to its
own direction without any direction re-check. -/
def c2Schedule : List Nat := [0, 1, 0, 2, 3, 2, 3, 3, 1, 1]

def c2State : SchedState := runTrace c2Schedule (initState c2Classes)

/-- C2: the claim that all onboard tasks always share one direction is
violated by the code: in the reachable state `c2State`, thread 1 (a
receiver) and thread 3 (a sender) are onboard simultaneously.  A task woken
inside `wait_to_be_onboard` boards without re-checking `bus_direction`, so
two wake passes in opposite directions put a sender and a receiver on the
bus together. -/
theorem C2_mixed_directions_onboard :
    Reachable (initState c2Classes) c2State ∧
    c2State.threads.get? 1 = some ⟨Dir.receive, Prio.priority, Loc.onboard⟩ ∧
    c2State.threads.get? 3 = some ⟨Dir.send, Prio.priority, Loc.onboard⟩ ∧
    c2State.g.task_on_bus = 2 := by
  exact ⟨reachable_runTrace c2Schedule _ (by decide), by decide, by decide, by decide⟩

/-- Thread pool for the C3 schedule. -/
def c3Classes : List (Dir × Prio) :=
  [(.receive, .priority), (.send, .normal), (.send, .priority),
   (.receive, .priority), (.send, .priority), (.send, .normal)]

/-- Schedule: receiver 0 boards; normal sender 1 waits; 0 releases and wakes
1; priority sender 2 boards and releases, waking 1 a second time (its wait
counter `send_task` is still 1), which leaves an orphaned `sema_up` on
`has_sender_semaphore`; 1 boards and releases; priority receiver 3 boards;
priority sender 4 now has to wait (`send_priority_task = 1`); normal sender
5 must wait too, but consumes the orphaned semaphore value immediately. -/
def c3Schedule : List Nat := [0, 1, 0, 2, 2, 1, 1, 1, 3, 4, 5, 5]

def c3State : SchedState := runTrace c3Schedule (initState c3Classes)

/-- C3: the claim that a normal task of direction D is never admitted while
`waiting[priority][D] > 0` is violated by the code: in the reachable state
`c3State` the priority sender (thread 4) is blocked and not woken
(`has_sender_priority_semaphore = 0`), `send_priority_task = 1 > 0`, yet
the normal sender (thread 5) is enabled and its next step increments
`task_on_bus` and puts it onboard. -/
theorem C3_normal_admitted_over_waiting_priority :
    Reachable (initState c3Classes) c3State ∧
    0 < c3State.g.send_priority_task ∧
    c3State.threads.get? 4 = some ⟨Dir.send, Prio.priority, Loc.waitSem⟩ ∧
    enabled 4 c3State = false ∧
    c3State.threads.get? 5 = some ⟨Dir.send, Prio.normal, Loc.waitMutex⟩ ∧
    enabled 5 c3State = true ∧
    (stepFn 5 c3State).g.task_on_bus = c3State.g.task_on_bus + 1 ∧
    (stepFn 5 c3State).threads.get? 5 = some ⟨Dir.send, Prio.normal, Loc.onboard⟩ := by
  exact ⟨reachable_runTrace c3Schedule _ (by decide), by decide, by decide, by decide,
    by decide, by decide, by decide, by decide⟩

/-- Thread pool for the C4 schedule: one priority sender and four priority
receivers. -/
def c4Classes : List (Dir × Prio) :=
  [(.send, .priority), (.receive, .priority), (.receive, .priority),
   (.receive, .priority), (.receive, .priority)]

/-- Schedule: sender 0 boards; receivers 1-3 wait; 0 releases, waking all
three receivers at once (`waiting_task = 3`). -/
def c4Schedule : List Nat := [0, 1, 2, 3, 0]

def c4State : SchedState := runTrace c4Schedule (initState c4Classes)

/-- C4 counterexample: in the reachable state `c4State`,
`task_on_bus + waiting_task = 0 + 3 ≥ BUS_CAPACITY`, yet the must-wait test
of `get_slot` answers `false` for a priority receiver (thread 4), which is
enabled and boards immediately: the C test compares only `task_on_bus`
against `BUS_CAPACITY` and ignores the reserved (woken) count. -/
theorem C4_counterexample :
    Reachable (initState c4Classes) c4State ∧
    BUS_CAPACITY ≤ c4State.g.task_on_bus + c4State.g.waiting_task ∧
    must_wait c4State.g Dir.receive Prio.priority = false ∧
    c4State.threads.get? 4 = some ⟨Dir.receive, Prio.priority, Loc.start⟩ ∧
    enabled 4 c4State = true ∧
    (stepFn 4 c4State).g.task_on_bus = c4State.g.task_on_bus + 1 ∧
    (stepFn 4 c4State).threads.get? 4 = some ⟨Dir.receive, Prio.priority, Loc.onboard⟩ := by
  exact ⟨reachable_runTrace c4Schedule _ (by decide), by decide, by decide, by decide,
    by decide, by decide, by decide⟩

/-- C4 (amended): the capacity part of the must-wait test of `get_slot`
compares only the onboard count against the capacity: in every reachable
state, whenever the test answers `false` (immediate admission), the onboard
count is strictly below `BUS_CAPACITY`; the reserved count is not part of
the test. -/
theorem C4_mustwait_checks_occupied_only (classes : List (Dir × Prio))
    (s : SchedState) (_h : Reachable (initState classes) s) (d : Dir) (p : Prio)
    (hmw : must_wait s.g d p = false) :
    s.g.task_on_bus < BUS_CAPACITY := by
  by_contra hc
  push_neg at hc
  unfold must_wait at hmw
  rw [if_pos hc] at hmw
  exact Bool.noConfusion hmw

theorem C4_mustwait_checks_occupied_only_witness :
    (initState [(Dir.send, Prio.normal)]).g.task_on_bus < BUS_CAPACITY :=
  C4_mustwait_checks_occupied_only _ _ Relation.ReflTransGen.refl
    Dir.send Prio.normal (by decide)

/-- Thread pool for the C5 schedule: a priority sender and five priority
receivers. -/
def c5Classes : List (Dir × Prio) :=
  [(.send, .priority), (.receive, .priority), (.receive, .priority),
   (.receive, .priority), (.receive, .priority), (.receive, .priority)]

/-- Schedule: sender 0 boards; receivers 1-3 wait; 0 releases, waking all
three (`waiting_task = 3`); receivers 4 and 5 board immediately while the
woken three are still pending (`task_on_bus = 2`, `waiting_task = 3`). -/
def c5Schedule : List Nat := [0, 1, 2, 3, 0, 4, 5]

def c5State : SchedState := runTrace c5Schedule (initState c5Classes)

/-- C5: the claim that a single `release_slot` call never wakes more than
`BUS_CAPACITY − task_on_bus` tasks is violated by the code: from the
reachable state `c5State`, thread 4 (onboard) is enabled, and its release
wakes 3 tasks in total although `BUS_CAPACITY − task_on_bus = 2` after the
decrement.  `empty_bus_slots = 3 − 1 − 3 = −1` is negative, and the `MIN`
macro compares the `int` against the `unsigned` waiting count, so the
negative value wraps and `to_wake` becomes the full waiting count 3. -/
theorem C5_release_wakes_beyond_capacity :
    Reachable (initState c5Classes) c5State ∧
    c5State.threads.get? 4 = some ⟨Dir.receive, Prio.priority, Loc.onboard⟩ ∧
    enabled 4 c5State = true ∧
    (release_slot c5State.g).2 = 3 ∧
    BUS_CAPACITY - (release_slot c5State.g).1.task_on_bus = 2 ∧
    BUS_CAPACITY - (release_slot c5State.g).1.task_on_bus < (release_slot c5State.g).2 := by
  exact ⟨reachable_runTrace c5Schedule _ (by decide), by decide, by decide, by decide,
    by decide, by decide⟩

/-- C7 counterexample: in the same reachable release, the priority-receive
wake burst wakes 3 tasks (the `has_receiver_priority_semaphore` value jumps
from 3 to 6) although the wake budget recomputed immediately before the
burst, `capacity − occupied − reserved = 3 − 1 − 3`, is `−1`: the burst is
not bounded by the available budget, contradicting the claim's "wake up to
available capacity" for the (symmetric) receive-side pass. -/
theorem C7_counterexample :
    Reachable (initState c5Classes) c5State ∧
    c5State.threads.get? 4 = some ⟨Dir.receive, Prio.priority, Loc.onboard⟩ ∧
    enabled 4 c5State = true ∧
    (release_slot c5State.g).1.has_receiver_priority_semaphore =
      c5State.g.has_receiver_priority_semaphore + 3 ∧
    BUS_CAPACITY - (c5State.g.task_on_bus - 1) - c5State.g.waiting_task = -1 := by
  exact ⟨reachable_runTrace c5Schedule _ (by decide), by decide, by decide, by decide,
    by decide⟩

/-- Thread pool for the C6 schedule: one priority sender, one priority
receiver. -/
def c6Classes : List (Dir × Prio) := [(.send, .priority), (.receive, .priority)]

/-- Schedule: sender 0 boards; receiver 1 waits; 0 releases, which empties
the bus and then wakes receiver 1, setting `bus_direction = RECEIVE` while
`task_on_bus = 0`. -/
def c6Schedule : List Nat := [0, 1, 0]

def c6State : SchedState := runTrace c6Schedule (initState c6Classes)

/-- C6 counterexample: the claimed equivalence `bus_direction = -1 ↔
task_on_bus = 0` fails in the reachable state `c6State`, where the bus is
empty (`task_on_bus = 0`) but `bus_direction = RECEIVE`, reserved for the
woken receiver. -/
theorem C6_counterexample :
    Reachable (initState c6Classes) c6State ∧
    c6State.g.task_on_bus = 0 ∧
    c6State.g.bus_direction ≠ -1 := by
  exact ⟨reachable_runTrace c6Schedule _ (by decide), by decide, by decide⟩

/-- C6 (amended): only one direction of the claimed equivalence holds: in
every reachable state, if `bus_direction = -1` then `task_on_bus = 0`
(equivalently, a non-empty bus always has a definite direction). -/
theorem C6_direction_none_implies_empty (classes : List (Dir × Prio))
    (s : SchedState) (h : Reachable (initState classes) s)
    (hdir : s.g.bus_direction = -1) : s.g.task_on_bus = 0 :=
  (inv_reachable h).2.2 hdir

theorem C6_direction_none_implies_empty_witness :
    (initState [(Dir.receive, Prio.normal)]).g.task_on_bus = 0 :=
  C6_direction_none_implies_empty _ _ Relation.ReflTransGen.refl rfl

/-- Thread pool for the C8 schedule: one priority sender and four priority
receivers. -/
def c8Classes : List (Dir × Prio) :=
  [(.send, .priority), (.receive, .priority), (.receive, .priority),
   (.receive, .priority), (.receive, .priority)]

/-- Schedule: sender 0 boards; receiver 1 waits; 0 releases and wakes 1
(reserving the direction); receivers 2-4 board immediately, filling all
three slots; the woken receiver 1 then re-acquires the mutex and calls
`sema_down(&bus_slots)` with `bus_slots = 0`, blocking while holding the
mutex. -/
def c8Schedule : List Nat := [0, 1, 0, 2, 3, 4, 1, 1]

def c8State : SchedState := runTrace c8Schedule (initState c8Classes)

/-- C8: the claim that a task never blocks while holding the controller
lock is violated by the code: in the reachable state `c8State`, thread 1 is
suspended inside `sema_down(&bus_slots)` at the end of `get_slot` while
holding `mutex` (`mutexHolder = some 1`, `mutex = 0`, `bus_slots = 0`), and
no thread of the pool has an enabled step: the system is deadlocked,
because every onboard thread needs the mutex to release its slot. -/
theorem C8_blocks_while_holding_mutex :
    Reachable (initState c8Classes) c8State ∧
    c8State.threads.get? 1 = some ⟨Dir.receive, Prio.priority, Loc.blockedSlots⟩ ∧
    c8State.g.mutexHolder = some 1 ∧
    c8State.g.mutex = 0 ∧
    c8State.g.bus_slots = 0 ∧
    ((List.range 5).all fun i => !enabled i c8State) = true := by
  exact ⟨reachable_runTrace c8Schedule _ (by decide), by decide, by decide, by decide,
    by decide, by decide⟩

end BatchSched

namespace BatchSched

/-- Spec vocabulary (§3): the bus capacity. -/
def capacity : Int := 3

/-- Spec vocabulary (§3): `occupied` is the onboard count. -/
def occupied (g : Globals) : Int := g.task_on_bus

/-- Spec vocabulary (§3): `reserved` is the woken-but-not-yet-onboard
count. -/
def reserved (g : Globals) : Int := g.waiting_task

/-- One wake burst, in the words of spec §4.2 step 5 amended for the
signedness of the C `MIN` macro: the budget is recomputed as
`capacity − occupied − reserved` immediately before the burst; the burst
wakes `min(budget, waiting)` tasks when the budget is nonnegative, but all
`waiting` tasks of the class when the budget is negative (the `int` budget
is converted to `unsigned` by the comparison). -/
def spec_burst (g : Globals) (c : WClass) : Globals × Int :=
  let budget := capacity - occupied g - reserved g
  let n := if 0 ≤ budget then min budget (classCount g c) else classCount g c
  (addSem { g with waiting_task := g.waiting_task + (n.toNat : Int) } c n.toNat, n)

/-- Spec §4.2 step 2 (amended burst rule): the send-side pass, run only when
the direction is not `receive`; it wakes from `waiting[priority][send]`
first, then from `waiting[normal][send]` only when
`waiting[priority][receive] = 0`, and sets `direction = send` exactly when
at least one task was woken in the pass. -/
def spec_send_pass (g : Globals) : Globals × Int :=
  if g.bus_direction ≠ RECEIVE then
    let a := spec_burst g .sp
    let b :=
      if a.1.recv_priority_task = 0 then
        let r := spec_burst a.1 .sn
        (r.1, a.2 + r.2)
      else (a.1, a.2)
    if 0 < b.2 then ({ b.1 with bus_direction := SEND }, b.2) else b
  else (g, 0)

/-- Spec §4.2 step 3 (amended burst rule): the receive-side pass, symmetric
to the send-side pass, run only when the direction is not `send`. -/
def spec_recv_pass (g : Globals) : Globals × Int :=
  if g.bus_direction ≠ SEND then
    let a := spec_burst g .rp
    let b :=
      if a.1.send_priority_task = 0 then
        let r := spec_burst a.1 .rn
        (r.1, a.2 + r.2)
      else (a.1, a.2)
    if 0 < b.2 then ({ b.1 with bus_direction := RECEIVE }, b.2) else b
  else (g, 0)

/-- Spec §4.2 steps 1-3 (amended burst rule): decrement `occupied`, return
the slot, reset the direction to none when the bus emptied, then the
send-side and receive-side passes. -/
def spec_release (g0 : Globals) : Globals × Int :=
  let g1 := { g0 with task_on_bus := g0.task_on_bus - 1, bus_slots := g0.bus_slots + 1 }
  let g2 := if occupied g1 = 0 then { g1 with bus_direction := -1 } else g1
  let s := spec_send_pass g2
  let r := spec_recv_pass s.1
  (r.1, s.2 + r.2)

theorem toWakeCount_spec (empty waiting : Int)
    (hw0 : 0 ≤ waiting) (hw1 : waiting ≤ 2000000)
    (he0 : -2000000 ≤ empty) (he1 : empty ≤ 2000000) :
    toWakeCount empty waiting =
      if 0 ≤ empty then min empty waiting else waiting := by
  unfold toWakeCount UINT_MOD
  simp only [Int.min_def]
  split_ifs <;> omega

theorem burst_eq (g : Globals) (c : WClass)
    (hc0 : 0 ≤ classCount g c) (hc1 : classCount g c ≤ 1000000)
    (ht0 : -1000000 ≤ g.task_on_bus) (ht1 : g.task_on_bus ≤ 1000000)
    (hw0 : 0 ≤ g.waiting_task) (hw1 : g.waiting_task ≤ 1000000) :
    wakeup_waiting_task g c = spec_burst g c := by
  simp only [wakeup_waiting_task, spec_burst]
  rw [toWakeCount_spec (BUS_CAPACITY - g.task_on_bus - g.waiting_task) (classCount g c)
    hc0 (by omega) (by simp only [BUS_CAPACITY]; omega) (by simp only [BUS_CAPACITY]; omega)]
  simp only [BUS_CAPACITY, capacity, occupied, reserved]

theorem spec_burst_fields (g : Globals) (c : WClass) :
    (spec_burst g c).1.task_on_bus = g.task_on_bus ∧
    (spec_burst g c).1.send_task = g.send_task ∧
    (spec_burst g c).1.receiver_task = g.receiver_task ∧
    (spec_burst g c).1.send_priority_task = g.send_priority_task ∧
    (spec_burst g c).1.recv_priority_task = g.recv_priority_task ∧
    g.waiting_task ≤ (spec_burst g c).1.waiting_task ∧
    (spec_burst g c).1.waiting_task ≤
      g.waiting_task + max (classCount g c) 0 := by
  cases c <;>
    simp only [spec_burst, addSem, classCount, Int.min_def] <;>
    split_ifs <;> simp <;> omega

theorem send_pass_eq (g : Globals)
    (hsp0 : 0 ≤ g.send_priority_task) (hsp1 : g.send_priority_task ≤ 100000)
    (hsn0 : 0 ≤ g.send_task) (hsn1 : g.send_task ≤ 100000)
    (ht0 : -100000 ≤ g.task_on_bus) (ht1 : g.task_on_bus ≤ 100000)
    (hw0 : 0 ≤ g.waiting_task) (hw1 : g.waiting_task ≤ 500000) :
    send_side_pass g = spec_send_pass g := by
  obtain ⟨f1, f2, f3, f4, f5, f6, f7⟩ := spec_burst_fields g .sp
  simp only [send_side_pass, spec_send_pass]
  rw [burst_eq g .sp (by simpa [classCount] using hsp0)
    (by simp only [classCount]; omega) (by omega) (by omega) hw0 (by omega)]
  rw [burst_eq (spec_burst g .sp).1 .sn (by simp only [classCount, f2]; omega)
    (by simp only [classCount, f2]; omega) (by rw [f1]; omega) (by rw [f1]; omega)
    (by omega) (by simp only [classCount] at *; omega)]

theorem recv_pass_eq (g : Globals)
    (hrp0 : 0 ≤ g.recv_priority_task) (hrp1 : g.recv_priority_task ≤ 100000)
    (hrn0 : 0 ≤ g.receiver_task) (hrn1 : g.receiver_task ≤ 100000)
    (ht0 : -100000 ≤ g.task_on_bus) (ht1 : g.task_on_bus ≤ 100000)
    (hw0 : 0 ≤ g.waiting_task) (hw1 : g.waiting_task ≤ 500000) :
    recv_side_pass g = spec_recv_pass g := by
  obtain ⟨f1, f2, f3, f4, f5, f6, f7⟩ := spec_burst_fields g .rp
  simp only [recv_side_pass, spec_recv_pass]
  rw [burst_eq g .rp (by simpa [classCount] using hrp0)
    (by simp only [classCount]; omega) (by omega) (by omega) hw0 (by omega)]
  rw [burst_eq (spec_burst g .rp).1 .rn (by simp only [classCount, f3]; omega)
    (by simp only [classCount, f3]; omega) (by rw [f1]; omega) (by rw [f1]; omega)
    (by omega) (by simp only [classCount] at *; omega)]

end BatchSched

namespace BatchSched

theorem spec_send_pass_fields (g : Globals)
    (hsp : 0 ≤ g.send_priority_task) (hsn : 0 ≤ g.send_task) :
    (spec_send_pass g).1.task_on_bus = g.task_on_bus ∧
    (spec_send_pass g).1.send_priority_task = g.send_priority_task ∧
    (spec_send_pass g).1.send_task = g.send_task ∧
    (spec_send_pass g).1.recv_priority_task = g.recv_priority_task ∧
    (spec_send_pass g).1.receiver_task = g.receiver_task ∧
    g.waiting_task ≤ (spec_send_pass g).1.waiting_task ∧
    (spec_send_pass g).1.waiting_task ≤
      g.waiting_task + g.send_priority_task + g.send_task := by
  obtain ⟨a1, a2, a3, a4, a5, a6, a7⟩ := spec_burst_fields g .sp
  obtain ⟨b1, b2, b3, b4, b5, b6, b7⟩ := spec_burst_fields (spec_burst g .sp).1 .sn
  simp only [classCount] at a7 b7
  simp only [spec_send_pass]
  split_ifs <;> simp_all <;> omega

theorem release_passes_eq (G : Globals)
    (hsp0 : 0 ≤ G.send_priority_task) (hsp1 : G.send_priority_task ≤ 100000)
    (hsn0 : 0 ≤ G.send_task) (hsn1 : G.send_task ≤ 100000)
    (hrp0 : 0 ≤ G.recv_priority_task) (hrp1 : G.recv_priority_task ≤ 100000)
    (hrn0 : 0 ≤ G.receiver_task) (hrn1 : G.receiver_task ≤ 100000)
    (ht0 : -100000 ≤ G.task_on_bus) (ht1 : G.task_on_bus ≤ 100000)
    (hw0 : 0 ≤ G.waiting_task) (hw1 : G.waiting_task ≤ 100000) :
    recv_side_pass (send_side_pass G).1 = spec_recv_pass (spec_send_pass G).1 ∧
    (send_side_pass G).2 = (spec_send_pass G).2 := by
  have hs := send_pass_eq G hsp0 hsp1 hsn0 hsn1 ht0 ht1 hw0 (by omega)
  obtain ⟨p1, p2, p3, p4, p5, p6, p7⟩ := spec_send_pass_fields G hsp0 hsn0
  rw [hs]
  refine ⟨recv_pass_eq _ ?_ ?_ ?_ ?_ ?_ ?_ ?_ ?_, rfl⟩
  · rw [p4]; exact hrp0
  · rw [p4]; exact hrp1
  · rw [p5]; exact hrn0
  · rw [p5]; exact hrn1
  · rw [p1]; exact ht0
  · rw [p1]; exact ht1
  · omega
  · omega

/-- C7 (amended): `release_slot` implements the spec's release algorithm
(steps 1-3 of §4.2) with one amendment to the burst rule: each wake burst
recomputes its budget as `capacity − occupied − reserved` and wakes
`min(budget, waiting)` tasks when the budget is nonnegative, but wakes all
`waiting` tasks of the class when the budget is negative (the `MIN` macro
converts the `int` budget to `unsigned`).  The send-side pass runs only
when the post-decrement direction is not `receive`, wakes priority senders
first, wakes normal senders only when the priority-receive counter is zero,
and sets the direction to `send` exactly when the pass woke at least one
task; the receive-side pass is symmetric and runs only when the direction
is not `send` at that point.  Stated as equality with `spec_release`,
written in the spec's vocabulary, for any state with all counters in
realistic bounds. -/
theorem C7_release_matches_spec (g : Globals)
    (hsp0 : 0 ≤ g.send_priority_task) (hsp1 : g.send_priority_task ≤ 100000)
    (hsn0 : 0 ≤ g.send_task) (hsn1 : g.send_task ≤ 100000)
    (hrp0 : 0 ≤ g.recv_priority_task) (hrp1 : g.recv_priority_task ≤ 100000)
    (hrn0 : 0 ≤ g.receiver_task) (hrn1 : g.receiver_task ≤ 100000)
    (ht0 : -99999 ≤ g.task_on_bus) (ht1 : g.task_on_bus ≤ 100000)
    (hw0 : 0 ≤ g.waiting_task) (hw1 : g.waiting_task ≤ 100000) :
    release_slot g = spec_release g := by
  simp only [release_slot, spec_release, occupied]
  split_ifs with h0
  · obtain ⟨e1, e2⟩ := release_passes_eq
      { g with task_on_bus := g.task_on_bus - 1, bus_slots := g.bus_slots + 1,
               bus_direction := -1 }
      hsp0 hsp1 hsn0 hsn1 hrp0 hrp1 hrn0 hrn1
      (by show -100000 ≤ g.task_on_bus - 1; omega)
      (by show g.task_on_bus - 1 ≤ 100000; omega) hw0 hw1
    rw [e1, e2]
  · obtain ⟨e1, e2⟩ := release_passes_eq
      { g with task_on_bus := g.task_on_bus - 1, bus_slots := g.bus_slots + 1 }
      hsp0 hsp1 hsn0 hsn1 hrp0 hrp1 hrn0 hrn1
      (by show -100000 ≤ g.task_on_bus - 1; omega)
      (by show g.task_on_bus - 1 ≤ 100000; omega) hw0 hw1
    rw [e1, e2]

theorem C7_release_matches_spec_witness :
    release_slot c5State.g = spec_release c5State.g :=
  C7_release_matches_spec c5State.g (by decide) (by decide) (by decide) (by decide)
    (by decide) (by decide) (by decide) (by decide) (by decide) (by decide)
    (by decide) (by decide)

end BatchSched

namespace BatchSched

/-- A task record as filled in by `batch_scheduler` (the `task_t` struct:
direction, priority, `transfer_duration`). -/
structure TaskRec where
  direction : Dir
  priority : Prio
  transfer_duration : Nat
  deriving DecidableEq, Repr

/-- The tasks created by the four loops of `batch_scheduler`, in creation
order: priority senders, then priority receivers, then normal senders, then
normal receivers; the `j`-th created task consumes the `j`-th output of
`random_ulong` and stores `random_ulong() % 244` as its duration. -/
def spawned_tasks (rand : Nat → Nat) (nps npr nts ntr : Nat) : List TaskRec :=
  ((List.range nps).map fun i => ⟨.send, .priority, rand i % 244⟩) ++
  ((List.range npr).map fun i => ⟨.receive, .priority, rand (nps + i) % 244⟩) ++
  ((List.range nts).map fun i => ⟨.send, .normal, rand (nps + npr + i) % 244⟩) ++
  ((List.range ntr).map fun i => ⟨.receive, .normal, rand (nps + npr + nts + i) % 244⟩)

/-- `total_transfer_dur`: the sum of all assigned transfer durations. -/
def total_transfer_dur (ts : List TaskRec) : Nat :=
  (ts.map fun t => t.transfer_duration).sum

/-- `batch_scheduler`: asserts that the four requested counts sum to at most
`MAX_NUM_OF_TASKS = 200` (in the order written in the C `ASSERT`), spawns
the tasks, and ends with `timer_sleep (2 * total_transfer_dur)`.  Returns
`none` on assertion failure, otherwise the spawned tasks together with the
`timer_sleep` argument. -/
def batch_scheduler (rand : Nat → Nat)
    (num_priority_send num_priority_receive num_tasks_send num_tasks_receive : Nat) :
    Option (List TaskRec × Nat) :=
  if num_tasks_send + num_tasks_receive + num_priority_send + num_priority_receive ≤ 200 then
    let ts := spawned_tasks rand num_priority_send num_priority_receive
        num_tasks_send num_tasks_receive
    some (ts, 2 * total_transfer_dur ts)
  else none

theorem spawned_tasks_durations (rand : Nat → Nat) (a b c d : Nat) :
    (spawned_tasks rand a b c d).map (fun t => t.transfer_duration) =
      (List.range (a + b + c + d)).map fun j => rand j % 244 := by
  simp only [spawned_tasks, List.map_append, List.map_map]
  rw [List.range_add, List.range_add, List.range_add]
  simp only [List.map_append, List.map_map]
  rfl

/-- C9: for every call of `batch_scheduler` whose four arguments sum to at
most 200 (the `ASSERT` precondition), it spawns exactly that many tasks,
assigns the `j`-th spawned task the duration `random_ulong() % 244`, i.e. a
value of `[0, 243]` drawn from the random-number collaborator, and blocks
the caller (`timer_sleep`) for exactly `2 ×` the sum of all assigned
durations before returning. -/
theorem C9_batch_scheduler_spawns (rand : Nat → Nat) (a b c d : Nat)
    (h : a + b + c + d ≤ 200) :
    ∀ ts slp, batch_scheduler rand a b c d = some (ts, slp) →
      ts.length = a + b + c + d ∧
      (ts.map fun t => t.transfer_duration) =
        ((List.range (a + b + c + d)).map fun j => rand j % 244) ∧
      (∀ t ∈ ts, t.transfer_duration ≤ 243) ∧
      slp = 2 * (ts.map fun t => t.transfer_duration).sum := by
  intro ts slp heq
  unfold batch_scheduler at heq
  rw [if_pos (by omega)] at heq
  obtain ⟨rfl, rfl⟩ : spawned_tasks rand a b c d = ts ∧
      2 * total_transfer_dur (spawned_tasks rand a b c d) = slp := by
    injection heq with h2
    injection h2 with h3 h4
    exact ⟨h3, h4⟩
  refine ⟨?_, spawned_tasks_durations rand a b c d, ?_, rfl⟩
  · simp only [spawned_tasks, List.length_append, List.length_map, List.length_range]
  · intro t ht
    simp only [spawned_tasks, List.mem_append, List.mem_map, List.mem_range] at ht
    rcases ht with ((⟨i, _, rfl⟩ | ⟨i, _, rfl⟩) | ⟨i, _, rfl⟩) | ⟨i, _, rfl⟩ <;>
      exact Nat.le_of_lt_succ (Nat.mod_lt _ (by norm_num))

def c9rand : Nat → Nat := fun n => 7 * n + 3

def c9tasks : List TaskRec := spawned_tasks c9rand 1 2 3 4

theorem C9_batch_scheduler_spawns_witness :
    c9tasks.length = 1 + 2 + 3 + 4 ∧
    (c9tasks.map fun t => t.transfer_duration) =
      ((List.range (1 + 2 + 3 + 4)).map fun j => c9rand j % 244) ∧
    (∀ t ∈ c9tasks, t.transfer_duration ≤ 243) ∧
    2 * total_transfer_dur c9tasks = 2 * (c9tasks.map fun t => t.transfer_duration).sum :=
  C9_batch_scheduler_spawns c9rand 1 2 3 4 (by decide) c9tasks
    (2 * total_transfer_dur c9tasks) rfl

/-- The seed constant `init_bus` passes to `random_init`:
`(unsigned int)123456789`. -/
def INIT_SEED : Nat := 123456789

/-- An environment a run executes in: the random-number collaborator
(`lib/random.h`), modelled as a deterministic algorithm mapping a seed to
the stream of successive `random_ulong()` outputs, together with whatever
ambient entropy (boot time, interrupts, ...) the process could have fed
into the seed instead of a constant. -/
structure RunEnv where
  prng : Nat → Nat → Nat
  entropy : Nat

/-- The seeding step of `init_bus`: `random_init ((unsigned int)123456789)`
passes the fixed constant and ignores the ambient entropy, so the stream of
subsequent `random_ulong()` outputs is `prng INIT_SEED`. -/
def init_bus_random (env : RunEnv) : Nat → Nat := env.prng INIT_SEED

/-- One full run `init_bus(); batch_scheduler(a, b, c, d)`: the spawned
tasks with their assigned durations, and the sleep length. -/
def scheduler_run (env : RunEnv) (a b c d : Nat) : Option (List TaskRec × Nat) :=
  batch_scheduler (init_bus_random env) a b c d

/-- C10: `init_bus` seeds the random-number generator with the fixed
constant 123456789, so duration assignment is deterministic: any two runs
that call `init_bus` and then `batch_scheduler` with the same four
arguments (under the same PRNG algorithm, whatever ambient entropy each run
could have observed) assign the identical sequence of transfer durations to
their spawned tasks. -/
theorem C10_deterministic_durations (alg : Nat → Nat → Nat) (e1 e2 : Nat)
    (a b c d : Nat) :
    scheduler_run ⟨alg, e1⟩ a b c d = scheduler_run ⟨alg, e2⟩ a b c d := rfl

end BatchSched
